import Mathlib

/-!
# Verification of the my-wealth-app core (src/app.py)

Shallow embedding of the two core components of `src/app.py`:

* the row classifier `parse_my_data` (lines 67-113) with its tolerant numeric
  parser `clean_num` (lines 81-84),
* the aggregate computations over the parsed DataFrame (lines 144-158), and
* the layered withdrawal waterfall (lines 182-199 and 245-246).

Modelling conventions:

* Python numbers are modelled as exact rationals (`ℚ`).
* Python strings are modelled as lists of characters (`Str := List Char`),
  and the string primitives the source uses (`str.strip`, `str.replace`,
  the `in` substring test) are re-implemented by structural recursion so
  that every definition evaluates inside the kernel.
* A spreadsheet cell is either an already-numeric value or a string, matching
  the `isinstance(x, (int, float))` test in `clean_num`.
* `float(...)` applied to a non-numeric string raises `ValueError` in Python;
  this is modelled by `Option`: `none` models a raised exception, which
  propagates out of the classifier.
-/

namespace WealthApp

/-- Python strings, modelled as lists of characters. -/
abbrev Str := List Char

/-- One spreadsheet cell: `gspread` delivers strings, but `clean_num` also
accepts values that are already numeric (`isinstance(x, (int, float))`). -/
inductive Cell where
  | num (v : ℚ)
  | str (s : Str)
  deriving DecidableEq

/-- The whitespace characters removed by Python's `str.strip()`
(the ASCII ones; exotic Unicode spaces do not occur in the markers). -/
def pySpace (c : Char) : Bool :=
  c = ' ' || c = '\t' || c = '\n' || c = '\x0d' || c = '\x0b' || c = '\x0c'

/-- Python `str.strip()`: drop whitespace from both ends. -/
def pyStrip (l : Str) : Str :=
  ((l.dropWhile pySpace).reverse.dropWhile pySpace).reverse

/-- Auxiliary loop for `removeSub`, with explicit fuel (the fuel is the
length of the scanned list, so it never runs out). -/
def removeSubAux (pat : Str) : Nat → Str → Str
  | 0, l => l
  | _ + 1, [] => []
  | fuel + 1, c :: rest =>
    if !pat.isEmpty && pat.isPrefixOf (c :: rest) then
      removeSubAux pat fuel ((c :: rest).drop pat.length)
    else
      c :: removeSubAux pat fuel rest

/-- Python `s.replace(pat, '')`: remove every non-overlapping occurrence of
`pat`, scanning left to right (the source only ever replaces with `''`). -/
def removeSub (pat l : Str) : Str := removeSubAux pat l.length l

/-- Python's substring test `pat in s`. -/
def containsSub (pat : Str) : Str → Bool
  | [] => pat.isEmpty
  | c :: rest => pat.isPrefixOf (c :: rest) || containsSub pat rest

/-- Decimal value of a list of digit characters. -/
def charsVal (l : Str) : ℕ :=
  l.foldl (fun a c => 10 * a + (c.toNat - 48)) 0

/-- Scan for Python's numeric-literal underscore rule, carrying the previous
character: every `'_'` must sit between two digits. -/
def okUnderscoresAux (prev : Char) : Str → Bool
  | [] => true
  | '_' :: rest =>
    prev.isDigit &&
      (match rest with
       | d :: _ => d.isDigit
       | [] => false) &&
      okUnderscoresAux '_' rest
  | c :: rest => okUnderscoresAux c rest

/-- Python's numeric-literal underscore rule: every `'_'` must be
immediately preceded and followed by a digit. -/
def okUnderscores : Str → Bool
  | [] => true
  | '_' :: _ => false
  | c :: rest => okUnderscoresAux c rest

/-- Exponent part of a Python float literal (after the `e`/`E`):
an optional sign followed by a nonempty digit string. -/
def parseExp : Str → Option ℤ
  | [] => none
  | '+' :: d =>
    if !d.isEmpty && d.all Char.isDigit then some (charsVal d) else none
  | '-' :: d =>
    if !d.isEmpty && d.all Char.isDigit then some (-(charsVal d : ℤ)) else none
  | l =>
    if l.all Char.isDigit then some (charsVal l) else none

/-- Mantissa of a Python float literal: digits with an optional decimal
point, at least one digit overall. -/
def parseMantissa (l : Str) : Option ℚ :=
  let ip := l.takeWhile (· ≠ '.')
  let rest := l.dropWhile (· ≠ '.')
  match rest with
  | [] =>
    if !ip.isEmpty && ip.all Char.isDigit then some (charsVal ip) else none
  | _ :: fp =>
    if ip.all Char.isDigit && fp.all Char.isDigit && !(ip.isEmpty && fp.isEmpty) then
      some ((charsVal ip : ℚ) + (charsVal fp : ℚ) / 10 ^ fp.length)
    else none

/-- Python `float(s)` on an already-stripped string, over the exact-rational
model: an optional sign, a decimal mantissa and an optional exponent, with
Python's between-digits underscore rule.  `none` models a raised
`ValueError`.  The non-finite literals (`inf`, `nan`) have no rational
value and fall outside this model. -/
def pyFloat (s : Str) : Option ℚ :=
  if !okUnderscores s then none
  else
    let l := s.filter (· ≠ '_')
    let (neg, m) : Bool × Str :=
      match l with
      | '+' :: rest => (false, rest)
      | '-' :: rest => (true, rest)
      | _ => (false, l)
    let mant := m.takeWhile (fun c => c ≠ 'e' && c ≠ 'E')
    let rest := m.dropWhile (fun c => c ≠ 'e' && c ≠ 'E')
    match parseMantissa mant with
    | none => none
    | some v =>
      match rest with
      | [] => some (if neg then -v else v)
      | _ :: ex =>
        match parseExp ex with
        | none => none
        | some e => some ((if neg then -v else v) * (10 : ℚ) ^ e)

/-- The tolerant numeric parser `clean_num` (src/app.py lines 81-84): numeric cells pass through
unchanged; string cells have `','`, `'NT$'` and `'%'` removed and are
stripped; an empty result gives `0`, otherwise Python calls `float(...)`,
which raises (`none`) on unparseable text. -/
def clean_num : Cell → Option ℚ
  | .num v => some v
  | .str s =>
    let x_str := pyStrip (removeSub "%".data (removeSub "NT$".data (removeSub ",".data s)))
    if x_str.isEmpty then some 0 else pyFloat x_str

/-- Python `str()` of a numeric cell, in the rational model: integral values
render as Python floats do (`str(5.0) = "5.0"`); non-integral values use a
`num/den` rendering.  Only digits and `-` `.` `/` ever appear, so such a
label can never contain any of the classifier's CJK keyword markers; no
theorem depends on the exact shape beyond that. -/
def ratRepr (q : ℚ) : Str :=
  let intPart : Str := (if q.num < 0 then ['-'] else []) ++ Nat.toDigits 10 q.num.natAbs
  if q.den = 1 then intPart ++ ['.', '0'] else intPart ++ '/' :: Nat.toDigits 10 q.den

/-- Python `str(cell)`, as used for `row[0]` at line 74. -/
def cellStr : Cell → Str
  | .num v => ratRepr v
  | .str s => s

/-- One normalized ledger record, the dict appended at lines 91, 106, 111
(keys `類別`/`項目`/`金額`/`股數`/`備援`).  The category is kept as the
literal string the source stores. -/
structure Record where
  category : Str
  item : Str
  amount : ℚ
  shares : ℚ
  reserve : Bool
  deriving DecidableEq

/-- The classifier's sticky section flag (the Python string
`"asset"` / `"liability"` at lines 70, 95). -/
inductive Sec where
  | asset | liability
  deriving DecidableEq

/-- Loop state of `parse_my_data`: the section flag and the two
accumulator lists `assets` and `liabilities`. -/
structure PState where
  sec : Sec
  assets : List Record
  liabilities : List Record
  deriving DecidableEq

/-- Initial loop state (lines 68-70). -/
def initState : PState := ⟨Sec.asset, [], []⟩

/-- Row padding `row + [''] * (5 - len(row))` (line 73). -/
def padRow (row : List Cell) : List Cell :=
  row ++ List.replicate (5 - row.length) (.str [])

/-- Label extraction `item_name = str(row[0]).strip()` (line 74). -/
def rowLabel (row : List Cell) : Str :=
  pyStrip (cellStr ((padRow row).getD 0 (.str [])))

/-- The exclusion filter (lines 76-79): empty label, the literal header
token `項目`, or a label containing a total (`合計`), net-worth (`淨值`)
or exchange-rate (`匯率`) marker. -/
def excludedLabel (item_name : Str) : Bool :=
  item_name.isEmpty || item_name == "項目".data ||
  containsSub "合計".data item_name || containsSub "淨值".data item_name ||
  containsSub "匯率".data item_name

/-- Cash keyword markers, line 102. -/
def isCashLabel (l : Str) : Bool :=
  containsSub "現金".data l || containsSub "口袋".data l ||
  containsSub "活存".data l || containsSub "e財庫".data l

/-- Foreign-equity (US) keyword markers, line 103. -/
def isUSLabel (l : Str) : Bool :=
  containsSub "美股".data l || containsSub "VT".data l || containsSub "VOO".data l

/-- Domestic-equity (TW) keyword markers, line 104. -/
def isTWLabel (l : Str) : Bool :=
  containsSub "鴻海".data l || containsSub "0050".data l || containsSub "台股".data l

/-- Category assignment for asset-section rows (lines 101-104):
first match wins, in the order cash, US equity, TW equity, other. -/
def assetCategory (l : Str) : Str :=
  if isCashLabel l then "現金".data
  else if isUSLabel l then "美股".data
  else if isTWLabel l then "台股".data
  else "其他".data

/-- Guard of the reserve-cash special case (line 89): contains the
offset-type marker `抵利型`, no mortgage marker `房貸`, and a cash
marker `現金`. -/
def isReserveRow (l : Str) : Bool :=
  containsSub "抵利型".data l && !containsSub "房貸".data l && containsSub "現金".data l

/-- Guard of the section switch (line 94): a mortgage (`房貸`), unsecured
loan (`信貸`) or borrowing (`借款`) marker, and no offset-type marker. -/
def isLiabilitySwitch (l : Str) : Bool :=
  (containsSub "房貸".data l || containsSub "信貸".data l || containsSub "借款".data l) &&
  !containsSub "抵利型".data l

/-- The ordinary asset/liability routing (lines 97-111): in the asset
section the money column wins when positive, otherwise the second cell is
the amount; in the liability section the second cell is negated and
zero-valued rows are dropped. -/
def routeOrdinary (st : PState) (item_name : Str) (val_1 val_3 : ℚ) : PState :=
  match st.sec with
  | .asset =>
    let amount := if val_3 > 0 then val_3 else val_1
    let shares := if val_3 > 0 then val_1 else 0
    { st with assets :=
        st.assets ++ [⟨assetCategory item_name, item_name, amount, shares, false⟩] }
  | .liability =>
    let amount := val_1
    if amount > 0 then
      { st with liabilities :=
          st.liabilities ++ [⟨"負債".data, item_name, -amount, 0, false⟩] }
    else st

/-- Cell value `val_1 = clean_num(row[1])` (line 86), on the padded row. -/
def rowVal1 (row : List Cell) : Option ℚ :=
  clean_num ((padRow row).getD 1 (.str []))

/-- Cell value `val_3 = clean_num(row[3])` (line 87), on the padded row. -/
def rowVal3 (row : List Cell) : Option ℚ :=
  clean_num ((padRow row).getD 3 (.str []))

/-- The classification of one surviving row with successfully parsed
numeric cells (lines 89-111): the reserve-cash special case first, then
the section switch, then the ordinary routing. -/
def stepBody (st : PState) (item_name : Str) (val_1 val_3 : ℚ) : PState :=
  if isReserveRow item_name then
    { st with assets :=
        st.assets ++ [⟨"備援現金".data, item_name, max val_1 val_3, 0, true⟩] }
  else
    routeOrdinary
      { st with sec := if isLiabilitySwitch item_name then Sec.liability else st.sec }
      item_name val_1 val_3

/-- One iteration of the `parse_my_data` loop (lines 72-111) on a single
raw row.  `none` models an uncaught `ValueError` from `clean_num`. -/
def step (st : PState) (row : List Cell) : Option PState :=
  if excludedLabel (rowLabel row) then some st
  else
    match rowVal1 row, rowVal3 row with
    | some val_1, some val_3 => some (stepBody st (rowLabel row) val_1 val_3)
    | _, _ => none

/-- The row classifier `parse_my_data` (lines 67-113): fold the per-row step over the raw
rows and return `assets + liabilities`. -/
def parse_my_data (raw_data : List (List Cell)) : Option (List Record) :=
  (raw_data.foldlM step initState).map fun st => st.assets ++ st.liabilities

/-- Positive-amount records `assets_df = df[df['金額'] > 0]` (line 144). -/
def assetRecords (df : List Record) : List Record :=
  df.filter fun r => 0 < r.amount

/-- Negative-amount records `liabilities_df = df[df['金額'] < 0]` (line 145). -/
def liabilityRecords (df : List Record) : List Record :=
  df.filter fun r => r.amount < 0

/-- Reserve ("buffer") cash: sum of positive amounts with the reserve flag
set (lines 148-149). -/
def buffer_cash (df : List Record) : ℚ :=
  (((assetRecords df).filter fun r => r.reserve).map fun r => r.amount).sum

/-- General assets: sum of positive amounts with the reserve flag clear
(lines 150-151). -/
def general_assets (df : List Record) : ℚ :=
  (((assetRecords df).filter fun r => !r.reserve).map fun r => r.amount).sum

/-- Ordinary cash: positive amounts in category `現金` that are not
reserve (lines 152-153). -/
def normal_cash (df : List Record) : ℚ :=
  (((assetRecords df).filter fun r => r.category == "現金".data && !r.reserve).map
    fun r => r.amount).sum

/-- Sum of liability amounts `total_liabilities` (line 155). -/
def total_liabilities (df : List Record) : ℚ :=
  ((liabilityRecords df).map fun r => r.amount).sum

/-- Share count of the dividend-paying equity: sum of `股數` over asset
rows whose item contains `鴻海` (lines 157-158). -/
def total_honhai_shares (df : List Record) : ℚ :=
  (((assetRecords df).filter fun r => containsSub "鴻海".data r.item).map
    fun r => r.shares).sum

/-- The scenario parameters from the sidebar (lines 175-179), as the
already-converted fractions used by the computation (`iwr` and
`inflation_rate` are entered as percentages and divided by 100). -/
structure Params where
  honhai_eps : ℚ
  iwr : ℚ
  inflation_rate : ℚ
  monthly_living : ℚ
  monthly_debt : ℚ
  deriving DecidableEq

/-- The funding plan the waterfall computes: the four layer draws, the
total expense, and the final balance of the chart (lines 182-199,
245-246). -/
structure Plan where
  dividend_income : ℚ
  sell_stock_amount : ℚ
  use_normal_cash : ℚ
  use_buffer_cash : ℚ
  total_expense : ℚ
  final_balance : ℚ
  deriving DecidableEq

/-- The layered withdrawal waterfall (lines 182-199), together with the
chart subtotal and final balance (lines 245-246). -/
def waterfall (general_assets normal_cash total_honhai_shares : ℚ) (p : Params) : Plan :=
  let annual_living_cost := p.monthly_living * 12 * (1 + p.inflation_rate)
  let annual_debt_cost := p.monthly_debt * 12
  let total_expense := annual_living_cost + annual_debt_cost
  let dividend_income := total_honhai_shares * p.honhai_eps
  let gk_base := general_assets
  let gk_total_limit := gk_base * p.iwr
  let sell_stock_amount := max 0 (gk_total_limit - dividend_income)
  let funds_stage_1 := dividend_income + sell_stock_amount
  let gap_1 := total_expense - funds_stage_1
  -- lines 192-199: both draws start at 0 and are only assigned when
  -- `gap_1 > 0`; `gap_2 = gap_1 - use_normal_cash`.
  let use_normal_cash := if gap_1 > 0 then min gap_1 normal_cash else 0
  let use_buffer_cash :=
    if gap_1 > 0 then
      (if gap_1 - min gap_1 normal_cash > 0 then gap_1 - min gap_1 normal_cash else 0)
    else 0
  let subtotal := dividend_income + sell_stock_amount + use_normal_cash + use_buffer_cash
  let final_balance := subtotal - annual_living_cost - annual_debt_cost
  ⟨dividend_income, sell_stock_amount, use_normal_cash, use_buffer_cash,
   total_expense, final_balance⟩

/-- Shortfall left after layers 1 and 2 (`gap_1` at line 190), read back
from a computed plan. -/
def planGap1 (pl : Plan) : ℚ :=
  pl.total_expense - (pl.dividend_income + pl.sell_stock_amount)

/-- The spec's §8 example ledger: one dividend-paying equity holding, one
ordinary cash record, one reserve-cash record, one liability. -/
def sampleLedger : List Record :=
  [⟨"台股".data, "鴻海".data, 100000, 1000, false⟩,
   ⟨"現金".data, "現金".data, 50000, 0, false⟩,
   ⟨"備援現金".data, "抵利型現金".data, 200000, 0, true⟩,
   ⟨"負債".data, "房貸".data, -30000, 0, false⟩]

/-- The spec's §8 example parameters (dividend 10 per share, withdrawal
rate 4%, no inflation, living 5000/month, debt 1000/month). -/
def sampleParams : Params := ⟨10, 4/100, 0, 5000, 1000⟩

/-- The classifier's sign discipline on its loop state: every accumulated
asset record has a non-liability category, and every accumulated liability
record has category `負債` and a strictly negative amount. -/
def SignInv (st : PState) : Prop :=
  (∀ r ∈ st.assets, r.category ≠ "負債".data) ∧
  (∀ r ∈ st.liabilities, r.category = "負債".data ∧ r.amount < 0)

/-- C1: Waterfall conservation.  For every aggregates value and every
scenario-parameter set, the computed plan satisfies
`dividendIncome + soldAssetAmount + ordinaryCashUsed + reserveCashUsed -
totalExpense = finalBalance` exactly. -/
theorem waterfall_conservation (ga nc sh : ℚ) (p : Params) :
    (waterfall ga nc sh p).dividend_income + (waterfall ga nc sh p).sell_stock_amount +
      (waterfall ga nc sh p).use_normal_cash + (waterfall ga nc sh p).use_buffer_cash -
      (waterfall ga nc sh p).total_expense = (waterfall ga nc sh p).final_balance := by
  simp only [waterfall]
  split_ifs <;> ring

/-- C2 counterexample: `clean_num` does not return 0 for every unparseable
cell — a non-empty cell that `float()` cannot parse raises `ValueError`
(modelled by `none`), and the exception propagates, so classification does
not complete: a single ordinary row with `"abc"` in the second cell makes
`parse_my_data` raise. -/
theorem clean_num_raises_on_unparseable :
    clean_num (.str "abc".data) = none ∧
    parse_my_data [[.str "現金".data, .str "abc".data, .str "".data, .str "".data]] = none := by
  decide

/-- C3 counterexample: the sign invariant fails on the classifier's actual
output.  An asset-section row with blank numeric cells emits a record with
`amount = 0` (category `現金`, not a liability), and an asset-section row
with a negative second cell emits a record with `amount < 0` whose category
is still not `負債`. -/
theorem sign_invariant_counterexample :
    parse_my_data [[.str "現金".data, .str "".data, .str "".data, .str "".data]] =
      some [⟨"現金".data, "現金".data, 0, 0, false⟩] ∧
    parse_my_data [[.str "現金".data, .num (-5), .str "".data, .str "".data]] =
      some [⟨"現金".data, "現金".data, -5, 0, false⟩] ∧
    "現金".data ≠ "負債".data := by
  decide

/-- C7 counterexample: a row whose label contains the offset-type marker
and the cash marker and no mortgage marker can still emit no record at
all, because the exclusion filter runs first: the label
`抵利型現金合計` also contains the total marker `合計`, so the row is
skipped and the ledger stays empty. -/
theorem reserve_rule_counterexample :
    containsSub "抵利型".data "抵利型現金合計".data = true ∧
    containsSub "現金".data "抵利型現金合計".data = true ∧
    containsSub "房貸".data "抵利型現金合計".data = false ∧
    parse_my_data [[.str "抵利型現金合計".data, .num 1, .str [], .num 2]] = some [] := by
  decide

/-- A row whose (stripped) label is caught by the exclusion filter leaves
the loop state unchanged (`continue`, lines 76-79). -/
theorem step_excluded (st : PState) (row : List Cell)
    (h : excludedLabel (rowLabel row) = true) : step st row = some st := by
  simp [step, h]

/-- Folding the classifier over rows that are all excluded leaves the
state unchanged. -/
theorem foldlM_all_excluded (rows : List (List Cell)) (st : PState)
    (h : ∀ row ∈ rows, excludedLabel (rowLabel row) = true) :
    rows.foldlM step st = some st := by
  induction rows with
  | nil => rfl
  | cons r rs ih =>
    rw [List.foldlM_cons, step_excluded st r (h r (List.mem_cons_self r rs))]
    exact ih fun row hrow => h row (List.mem_cons_of_mem r hrow)

/-- On input whose rows are all excluded (this includes the empty input),
the classifier returns an empty ledger without failing. -/
theorem parse_all_excluded (raw : List (List Cell))
    (h : ∀ row ∈ raw, excludedLabel (rowLabel row) = true) :
    parse_my_data raw = some [] := by
  unfold parse_my_data
  rw [foldlM_all_excluded raw initState h]
  rfl

/-- C4 counterexample: the funding plan computed on all-zero aggregates is
not all-zero.  With the app's default sidebar parameters (dividend 7,
withdrawal rate 4%, inflation 2%, living 60000/month, debt 125000/month)
the whole annual expense of 2 234 400 is drawn from reserve cash, so
`reserveCashUsed ≠ 0`.  (Moreover the app never runs the waterfall on an
empty DataFrame: lines 143 and 280-282 skip the whole dashboard.) -/
theorem empty_plan_not_all_zero :
    (waterfall 0 0 0 ⟨7, 4/100, 2/100, 60000, 125000⟩).use_buffer_cash = 2234400 ∧
    (waterfall 0 0 0 ⟨7, 4/100, 2/100, 60000, 125000⟩).total_expense = 2234400 := by
  constructor <;> norm_num [waterfall]

/-- C4 (amended): on empty input, or input whose rows are all excluded by
the filter, classification yields an empty ledger without failing and all
aggregates are zero.  The waterfall on those zero aggregates is still a
total function, but its plan is not all-zero: dividends, sale and
ordinary cash are zero, while the reserve layer absorbs the whole
expense, `reserveCashUsed = max 0 totalExpense` (and the final balance is
`max 0 totalExpense - totalExpense`).  In the application itself the
waterfall is skipped entirely on an empty DataFrame (lines 143, 280-282). -/
theorem empty_input_amended (raw : List (List Cell)) (p : Params)
    (h : ∀ row ∈ raw, excludedLabel (rowLabel row) = true) :
    parse_my_data raw = some [] ∧
    general_assets [] = 0 ∧ buffer_cash [] = 0 ∧ normal_cash [] = 0 ∧
    total_honhai_shares [] = 0 ∧ total_liabilities [] = 0 ∧
    (waterfall 0 0 0 p).dividend_income = 0 ∧
    (waterfall 0 0 0 p).sell_stock_amount = 0 ∧
    (waterfall 0 0 0 p).use_normal_cash = 0 ∧
    (waterfall 0 0 0 p).use_buffer_cash = max 0 ((waterfall 0 0 0 p).total_expense) ∧
    (waterfall 0 0 0 p).final_balance =
      max 0 ((waterfall 0 0 0 p).total_expense) - (waterfall 0 0 0 p).total_expense := by
  refine ⟨parse_all_excluded raw h, rfl, rfl, rfl, rfl, rfl, ?_, ?_, ?_, ?_, ?_⟩
  · simp [waterfall]
  · simp [waterfall]
  · simp only [waterfall, zero_mul, sub_zero, max_self, add_zero, zero_add, sub_self]
    split_ifs with hgt
    · exact min_eq_right hgt.le
    · rfl
  · simp only [waterfall, zero_mul, sub_zero, max_self, add_zero, zero_add, sub_self]
    norm_num
    rcases le_or_lt (p.monthly_living * 12 * (1 + p.inflation_rate) + p.monthly_debt * 12) 0
      with hle | hlt
    · simp [not_lt.mpr hle, max_eq_left hle]
    · simp only [hlt, if_true, min_eq_right hlt.le, sub_zero, max_eq_right hlt.le]
  · simp only [waterfall, zero_mul, sub_zero, max_self, add_zero, zero_add, sub_self]
    norm_num
    rcases le_or_lt (p.monthly_living * 12 * (1 + p.inflation_rate) + p.monthly_debt * 12) 0
      with hle | hlt
    · simp only [not_lt.mpr hle, if_false, max_eq_left hle]
      ring
    · simp only [hlt, if_true, min_eq_right hlt.le, sub_zero, max_eq_right hlt.le]
      ring

/-- C4 witness: the amended statement at the concrete excluded input
`["合計", "", "", "999999"]` and the default sidebar parameters. -/
theorem empty_input_amended_witness :
    parse_my_data [[.str "合計".data, .str "".data, .str "".data, .str "999999".data]] =
      some [] ∧
    general_assets [] = 0 ∧ buffer_cash [] = 0 ∧ normal_cash [] = 0 ∧
    total_honhai_shares [] = 0 ∧ total_liabilities [] = 0 ∧
    (waterfall 0 0 0 ⟨7, 4/100, 2/100, 60000, 125000⟩).dividend_income = 0 ∧
    (waterfall 0 0 0 ⟨7, 4/100, 2/100, 60000, 125000⟩).sell_stock_amount = 0 ∧
    (waterfall 0 0 0 ⟨7, 4/100, 2/100, 60000, 125000⟩).use_normal_cash = 0 ∧
    (waterfall 0 0 0 ⟨7, 4/100, 2/100, 60000, 125000⟩).use_buffer_cash =
      max 0 ((waterfall 0 0 0 ⟨7, 4/100, 2/100, 60000, 125000⟩).total_expense) ∧
    (waterfall 0 0 0 ⟨7, 4/100, 2/100, 60000, 125000⟩).final_balance =
      max 0 ((waterfall 0 0 0 ⟨7, 4/100, 2/100, 60000, 125000⟩).total_expense) -
        (waterfall 0 0 0 ⟨7, 4/100, 2/100, 60000, 125000⟩).total_expense :=
  empty_input_amended _ _ (by decide)

/-- C10 counterexample: a row whose label contains both `抵利型` and
`房貸` is not always routed as an ordinary record — the exclusion filter
still runs first, so the label `抵利型房貸合計` (which also contains
`合計`) is skipped outright and contributes nothing, under any section. -/
theorem offset_mortgage_counterexample :
    containsSub "抵利型".data "抵利型房貸合計".data = true ∧
    containsSub "房貸".data "抵利型房貸合計".data = true ∧
    parse_my_data [[.str "抵利型房貸合計".data, .num 1, .str [], .str []]] = some [] := by
  decide

/-- C2 (amended): `clean_num` returns numeric cells unchanged, strips
thousands separators, the `NT$` currency prefix and percent signs from
string cells, and returns 0 for empty (or all-whitespace) cells; but for a
non-empty cell that remains unparseable it raises `ValueError` (from
`float(...)`), which propagates, so classification does not always
complete. -/
theorem clean_num_amended :
    (∀ v : ℚ, clean_num (.num v) = some v) ∧
    clean_num (.str "1,234,567".data) = some 1234567 ∧
    clean_num (.str "NT$500".data) = some 500 ∧
    clean_num (.str "50%".data) = some 50 ∧
    clean_num (.str " 42 ".data) = some 42 ∧
    clean_num (.str "".data) = some 0 ∧
    clean_num (.str "   ".data) = some 0 ∧
    clean_num (.str "abc".data) = none ∧
    parse_my_data [[.str "現金".data, .str "abc".data, .str "".data, .str "".data]] = none :=
  ⟨fun _ => rfl, by decide, by decide, by decide, by decide, by decide, by decide,
   by decide, by decide⟩

/-- The asset-section category assignment never yields the liability
category. -/
theorem assetCategory_ne_liability (l : Str) : assetCategory l ≠ "負債".data := by
  unfold assetCategory
  split_ifs <;> decide

/-- The ordinary routing preserves the sign discipline: asset-section
records keep a non-liability category, and a liability record is only
appended when its (negated) amount is strictly negative. -/
theorem routeOrdinary_signInv {st : PState} (item : Str) (v1 v3 : ℚ)
    (hinv : SignInv st) : SignInv (routeOrdinary st item v1 v3) := by
  unfold routeOrdinary
  rcases st with ⟨sec, assets, liabilities⟩
  cases sec with
  | asset =>
    refine ⟨?_, hinv.2⟩
    intro r hr
    rcases List.mem_append.mp hr with hA | hB
    · exact hinv.1 r hA
    · rw [List.mem_singleton.mp hB]
      exact assetCategory_ne_liability item
  | liability =>
    dsimp only
    split_ifs with hpos
    · refine ⟨hinv.1, ?_⟩
      intro r hr
      rcases List.mem_append.mp hr with hA | hB
      · exact hinv.2 r hA
      · rw [List.mem_singleton.mp hB]
        exact ⟨rfl, neg_neg_of_pos hpos⟩
    · exact hinv

/-- The per-row classification preserves the sign discipline. -/
theorem stepBody_signInv {st : PState} (item : Str) (v1 v3 : ℚ)
    (hinv : SignInv st) : SignInv (stepBody st item v1 v3) := by
  unfold stepBody
  split_ifs with hres hsw
  · refine ⟨?_, hinv.2⟩
    intro r hr
    rcases List.mem_append.mp hr with hA | hB
    · exact hinv.1 r hA
    · rw [List.mem_singleton.mp hB]
      dsimp only
      decide
  · exact routeOrdinary_signInv _ _ _ ⟨hinv.1, hinv.2⟩
  · exact routeOrdinary_signInv _ _ _ ⟨hinv.1, hinv.2⟩

/-- The loop step preserves the sign discipline of the state. -/
theorem step_signInv {st st' : PState} {row : List Cell}
    (h : step st row = some st') (hinv : SignInv st) : SignInv st' := by
  unfold step at h
  by_cases hex : excludedLabel (rowLabel row) = true
  · rw [if_pos hex] at h
    cases h
    exact hinv
  · rw [if_neg hex] at h
    rcases hc1 : rowVal1 row with _ | v1 <;> rw [hc1] at h
    · cases h
    · rcases hc3 : rowVal3 row with _ | v3 <;> rw [hc3] at h
      · cases h
      · cases h
        exact stepBody_signInv _ _ _ hinv

/-- Folding the loop step preserves the sign discipline. -/
theorem foldlM_signInv (rows : List (List Cell)) (st st' : PState)
    (h : rows.foldlM step st = some st') (hinv : SignInv st) : SignInv st' := by
  induction rows generalizing st with
  | nil => cases h; exact hinv
  | cons r rs ih =>
    rw [List.foldlM_cons] at h
    rcases Option.bind_eq_some.mp h with ⟨st1, h1, h2⟩
    exact ih st1 h2 (step_signInv h1 hinv)

/-- C3 (amended): only one direction of each sign equivalence holds.  For
every record the classifier emits, a `負債` (liability) record has a
strictly negative amount, and a record with a strictly positive amount is
not a liability; but the converses fail (see the counterexample: an
asset-section row with blank or negative numeric cells yields a
non-liability record with amount 0 or below). -/
theorem sign_invariant_amended (raw : List (List Cell)) (df : List Record)
    (h : parse_my_data raw = some df) :
    ∀ r ∈ df, (r.category = "負債".data → r.amount < 0) ∧
      (0 < r.amount → r.category ≠ "負債".data) := by
  unfold parse_my_data at h
  rcases Option.map_eq_some'.mp h with ⟨st, hst, hdf⟩
  have hinv : SignInv st :=
    foldlM_signInv raw initState st hst ⟨by simp [initState], by simp [initState]⟩
  intro r hr
  rw [← hdf] at hr
  rcases List.mem_append.mp hr with hA | hL
  · have hne := hinv.1 r hA
    exact ⟨fun hcat => absurd hcat hne, fun _ => hne⟩
  · have hli := hinv.2 r hL
    exact ⟨fun _ => hli.2, fun hpos => absurd hpos (lt_asymm hli.2)⟩

/-- C3 witness: the amended sign property evaluated on a concrete parse
of a one-row liability input — the emitted `負債` record has a strictly
negative amount. -/
theorem sign_invariant_amended_witness :
    (⟨"負債".data, "房貸".data, -30000, 0, false⟩ : Record).amount < 0 :=
  (sign_invariant_amended [[.str "房貸".data, .num 30000, .str [], .str []]]
    [⟨"負債".data, "房貸".data, -30000, 0, false⟩] (by decide)
    ⟨"負債".data, "房貸".data, -30000, 0, false⟩ (by decide)).1 rfl

/-- The ordinary routing never changes the section flag. -/
theorem routeOrdinary_sec (st : PState) (item : Str) (v1 v3 : ℚ) :
    (routeOrdinary st item v1 v3).sec = st.sec := by
  unfold routeOrdinary
  rcases st with ⟨s, a, l⟩
  cases s
  · rfl
  · dsimp only
    split_ifs <;> rfl

/-- C7 (amended): for every row that passes the exclusion filter, whose
numeric cells parse, and whose label contains the offset-type marker and
the cash marker but no mortgage marker, the step appends exactly one
record — category `備援現金`, `amount = max(val_1, val_3)`, zero shares,
reserve flag set — to the assets, leaves the liabilities untouched, and
does not change the section flag, whatever state is in force. -/
theorem reserve_rule_amended (st : PState) (row : List Cell) (v1 v3 : ℚ)
    (hex : excludedLabel (rowLabel row) = false)
    (hres : isReserveRow (rowLabel row) = true)
    (h1 : rowVal1 row = some v1) (h3 : rowVal3 row = some v3) :
    step st row = some { st with assets :=
      st.assets ++ [⟨"備援現金".data, rowLabel row, max v1 v3, 0, true⟩] } := by
  unfold step
  rw [if_neg (by simp [hex]), h1, h3]
  show some (stepBody st (rowLabel row) v1 v3) = _
  unfold stepBody
  rw [if_pos hres]

/-- C7 witness: the reserve special case fired on a concrete row, from a
state already in the liability section (showing no section switch and no
other record). -/
theorem reserve_rule_amended_witness :
    step ⟨Sec.liability, [], []⟩ [.str "抵利型現金".data, .num 3, .str [], .num 7] =
      some ⟨Sec.liability,
        [⟨"備援現金".data, rowLabel [.str "抵利型現金".data, .num 3, .str [], .num 7],
          max 3 7, 0, true⟩], []⟩ :=
  reserve_rule_amended _ _ 3 7 (by decide) (by decide) rfl rfl

/-- C8: Asset routing convention.  A row processed in the asset section —
one that survives the exclusion filter, is not the reserve special case
and does not trigger the section switch (a switch row is processed under
the liability section) — emits exactly one record with
`amount = val_3 if val_3 > 0 else val_1`,
`shares = val_1 if val_3 > 0 else 0`, reserve flag clear, and category
assigned by first-match-wins precedence: cash markers, then US-equity
markers, then TW-equity markers, else `其他`. -/
theorem asset_routing (st : PState) (row : List Cell) (v1 v3 : ℚ)
    (hsec : st.sec = Sec.asset)
    (hex : excludedLabel (rowLabel row) = false)
    (hres : isReserveRow (rowLabel row) = false)
    (hsw : isLiabilitySwitch (rowLabel row) = false)
    (h1 : rowVal1 row = some v1) (h3 : rowVal3 row = some v3) :
    (step st row = some { st with assets := st.assets ++
      [⟨assetCategory (rowLabel row), rowLabel row,
        if v3 > 0 then v3 else v1, if v3 > 0 then v1 else 0, false⟩] }) ∧
    (∀ l, isCashLabel l = true → assetCategory l = "現金".data) ∧
    (∀ l, isCashLabel l = false → isUSLabel l = true → assetCategory l = "美股".data) ∧
    (∀ l, isCashLabel l = false → isUSLabel l = false → isTWLabel l = true →
      assetCategory l = "台股".data) ∧
    (∀ l, isCashLabel l = false → isUSLabel l = false → isTWLabel l = false →
      assetCategory l = "其他".data) := by
  refine ⟨?_, ?_, ?_, ?_, ?_⟩
  · unfold step
    rw [if_neg (by simp [hex]), h1, h3]
    show some (stepBody st (rowLabel row) v1 v3) = _
    unfold stepBody
    rw [if_neg (by simp [hres]), if_neg (by simp [hsw])]
    unfold routeOrdinary
    rcases st with ⟨s, a, li⟩
    dsimp only at hsec ⊢
    subst hsec
    rfl
  · intro l hl
    unfold assetCategory
    rw [if_pos hl]
  · intro l hc hus
    unfold assetCategory
    rw [if_neg (by simp [hc]), if_pos hus]
  · intro l hc hus htw
    unfold assetCategory
    rw [if_neg (by simp [hc]), if_neg (by simp [hus]), if_pos htw]
  · intro l hc hus htw
    unfold assetCategory
    rw [if_neg (by simp [hc]), if_neg (by simp [hus]), if_neg (by simp [htw])]

/-- C8 witness: the asset routing applied to a concrete `0050` equity row
(money column populated, so the second cell is the share count), plus the
precedence tie-break on a label containing both a cash marker and a
US-equity marker. -/
theorem asset_routing_witness :
    (step ⟨Sec.asset, [], []⟩ [.str "0050".data, .num 1000, .str [], .num 100000] =
      some ⟨Sec.asset,
        [⟨assetCategory (rowLabel [.str "0050".data, .num 1000, .str [], .num 100000]),
          rowLabel [.str "0050".data, .num 1000, .str [], .num 100000],
          if (100000 : ℚ) > 0 then 100000 else 1000,
          if (100000 : ℚ) > 0 then 1000 else 0, false⟩], []⟩) ∧
    assetCategory "現金與美股".data = "現金".data :=
  ⟨(asset_routing ⟨Sec.asset, [], []⟩ [.str "0050".data, .num 1000, .str [], .num 100000]
      1000 100000 rfl (by decide) (by decide) (by decide) rfl rfl).1,
   (asset_routing ⟨Sec.asset, [], []⟩ [.str "0050".data, .num 1000, .str [], .num 100000]
      1000 100000 rfl (by decide) (by decide) (by decide) rfl rfl).2.1
      "現金與美股".data (by decide)⟩

/-- C10 (amended): a row that passes the exclusion filter, whose numeric
cells parse, and whose label contains both the offset-type marker `抵利型`
and the mortgage marker `房貸`, fires neither the reserve special case
(its no-mortgage condition fails) nor the section switch (its
no-offset-type condition fails): the row goes through the ordinary
routing under whichever section is in force, and the section flag is
unchanged. -/
theorem offset_mortgage_amended (st : PState) (row : List Cell) (v1 v3 : ℚ)
    (hex : excludedLabel (rowLabel row) = false)
    (hoff : containsSub "抵利型".data (rowLabel row) = true)
    (hmort : containsSub "房貸".data (rowLabel row) = true)
    (h1 : rowVal1 row = some v1) (h3 : rowVal3 row = some v3) :
    step st row = some (routeOrdinary st (rowLabel row) v1 v3) ∧
    (routeOrdinary st (rowLabel row) v1 v3).sec = st.sec := by
  have hres : isReserveRow (rowLabel row) = false := by
    unfold isReserveRow
    rw [hmort]
    simp
  have hsw : isLiabilitySwitch (rowLabel row) = false := by
    unfold isLiabilitySwitch
    rw [hoff]
    simp
  constructor
  · unfold step
    rw [if_neg (by simp [hex]), h1, h3]
    show some (stepBody st (rowLabel row) v1 v3) = _
    unfold stepBody
    rw [if_neg (by simp [hres]), if_neg (by simp [hsw])]
  · exact routeOrdinary_sec st (rowLabel row) v1 v3

/-- C10 witness: the amended routing at a concrete `抵利型房貸` row from
the initial (asset) state. -/
theorem offset_mortgage_amended_witness :
    step ⟨Sec.asset, [], []⟩ [.str "抵利型房貸".data, .num 1, .str [], .str []] =
      some (routeOrdinary ⟨Sec.asset, [], []⟩
        (rowLabel [.str "抵利型房貸".data, .num 1, .str [], .str []]) 1 0) ∧
    (routeOrdinary ⟨Sec.asset, [], []⟩
      (rowLabel [.str "抵利型房貸".data, .num 1, .str [], .str []]) 1 0).sec = Sec.asset :=
  offset_mortgage_amended ⟨Sec.asset, [], []⟩ _ 1 0 (by decide) (by decide) (by decide) rfl rfl

/-- C9: No double count.  A row whose stripped label is caught by the
exclusion filter — empty, the literal header token `項目`, or containing
a total (`合計`), net-worth (`淨值`) or exchange-rate (`匯率`) marker —
leaves the classifier state untouched, so it contributes no record and
affects no aggregate; in particular inserting the row
`["合計", "", "", "999999"]` anywhere leaves the resulting ledger
identical. -/
theorem no_double_count :
    (∀ st row, excludedLabel (rowLabel row) = true → step st row = some st) ∧
    (∀ pre post : List (List Cell),
      parse_my_data
        (pre ++ ([.str "合計".data, .str "".data, .str "".data, .str "999999".data]) :: post)
        = parse_my_data (pre ++ post)) := by
  constructor
  · exact fun st row h => step_excluded st row h
  · intro pre post
    unfold parse_my_data
    rw [List.foldlM_append, List.foldlM_append]
    cases h : pre.foldlM step initState with
    | none => rfl
    | some s =>
      show Option.map (fun st => st.assets ++ st.liabilities)
          (List.foldlM step s
            ([Cell.str "合計".data, Cell.str "".data, Cell.str "".data,
              Cell.str "999999".data] :: post)) =
        Option.map (fun st => st.assets ++ st.liabilities) (List.foldlM step s post)
      rw [List.foldlM_cons, step_excluded s _ (by decide)]
      rfl

/-- C5: Layer-2 sale rule.  For every ledger and parameter set the plan's
sale amount is exactly `max 0 (generalAssets * initialWithdrawalRate -
dividendIncome)`; appending any reserve-flagged record to the ledger
leaves `generalAssets` (the sale base) unchanged, so reserve cash is
never part of the sale base; and when the dividend income already meets
or exceeds the ceiling, no sale occurs. -/
theorem sell_rule (df : List Record) (p : Params) :
    ((waterfall (general_assets df) (normal_cash df) (total_honhai_shares df) p).sell_stock_amount
      = max 0 (general_assets df * p.iwr - total_honhai_shares df * p.honhai_eps)) ∧
    (∀ r : Record, r.reserve = true → general_assets (df ++ [r]) = general_assets df) ∧
    (general_assets df * p.iwr ≤ total_honhai_shares df * p.honhai_eps →
      (waterfall (general_assets df) (normal_cash df) (total_honhai_shares df)
        p).sell_stock_amount = 0) := by
  refine ⟨rfl, ?_, ?_⟩
  · intro r hr
    unfold general_assets assetRecords
    simp only [List.filter_append, List.filter_cons, List.filter_nil, hr, Bool.not_true]
    split_ifs <;> simp [List.filter_cons, hr]
  · intro hle
    show max (0 : ℚ) (general_assets df * p.iwr - total_honhai_shares df * p.honhai_eps) = 0
    exact max_eq_left (sub_nonpos.mpr hle)

/-- C5 witness: the sale rule at the spec's §8 example ledger, the
reserve-append invariance at a concrete reserve record, and the
no-sale case on the empty ledger (dividend 0 meets ceiling 0). -/
theorem sell_rule_witness :
    ((waterfall (general_assets sampleLedger) (normal_cash sampleLedger)
        (total_honhai_shares sampleLedger) sampleParams).sell_stock_amount =
      max 0 (general_assets sampleLedger * sampleParams.iwr -
        total_honhai_shares sampleLedger * sampleParams.honhai_eps)) ∧
    general_assets (sampleLedger ++ [⟨"備援現金".data, "抵利型現金".data, 999, 0, true⟩]) =
      general_assets sampleLedger ∧
    (waterfall (general_assets []) (normal_cash []) (total_honhai_shares [])
      sampleParams).sell_stock_amount = 0 :=
  ⟨(sell_rule sampleLedger sampleParams).1,
   (sell_rule sampleLedger sampleParams).2.1 ⟨"備援現金".data, "抵利型現金".data, 999, 0, true⟩ rfl,
   (sell_rule [] sampleParams).2.2 (by
      norm_num [general_assets, total_honhai_shares, assetRecords, sampleParams])⟩

/-- Ordinary cash is a sum of strictly positive amounts, hence
nonnegative. -/
theorem normal_cash_nonneg (df : List Record) : 0 ≤ normal_cash df := by
  unfold normal_cash assetRecords
  refine List.sum_nonneg ?_
  intro x hx
  rcases List.mem_map.mp hx with ⟨r, hr, rfl⟩
  have h1 := (List.mem_filter.mp (List.mem_filter.mp hr).1).2
  exact le_of_lt (of_decide_eq_true h1)

/-- Core arithmetic of layers 3 and 4 (lines 192-199), stated over the
shortfall `G`, the available ordinary cash `nc`, and the two computed
draws. -/
theorem layers_core (G nc un ub : ℚ) (hnc : 0 ≤ nc)
    (hun : un = if 0 < G then min G nc else 0)
    (hub : ub = if 0 < G then (if 0 < G - min G nc then G - min G nc else 0) else 0) :
    (0 < un → 0 < G) ∧ (0 < G → un = min G nc) ∧ un ≤ nc ∧
    (0 < ub → 0 < G - un) ∧ (0 < G - un → ub = G - un) := by
  subst hun hub
  by_cases hG : 0 < G
  · simp only [if_pos hG]
    refine ⟨fun _ => hG, fun _ => trivial, min_le_right G nc, ?_, fun h2 => if_pos h2⟩
    intro hb
    by_cases h2 : 0 < G - min G nc
    · exact h2
    · rw [if_neg h2] at hb
      exact absurd hb (lt_irrefl 0)
  · simp only [if_neg hG]
    refine ⟨fun h => absurd h (lt_irrefl 0), fun hg => absurd hg hG, hnc,
      fun hb => absurd hb (lt_irrefl 0), ?_⟩
    intro h2
    rw [sub_zero] at h2
    exact absurd h2 hG

/-- C6: Layer ordering and caps.  Ordinary cash is drawn only when the
post-sale shortfall `gap1` is positive, in which case the draw is
`min gap1 ordinaryCash`, so it never exceeds the available ordinary cash;
the reserve draw is positive only when a residual gap remains after the
ordinary draw, in which case it equals that residual exactly, with no cap
at the available reserve balance. -/
theorem layer_ordering (df : List Record) (p : Params) :
    (0 < (waterfall (general_assets df) (normal_cash df) (total_honhai_shares df)
        p).use_normal_cash →
      0 < planGap1 (waterfall (general_assets df) (normal_cash df)
        (total_honhai_shares df) p)) ∧
    (0 < planGap1 (waterfall (general_assets df) (normal_cash df)
        (total_honhai_shares df) p) →
      (waterfall (general_assets df) (normal_cash df) (total_honhai_shares df)
        p).use_normal_cash =
        min (planGap1 (waterfall (general_assets df) (normal_cash df)
          (total_honhai_shares df) p)) (normal_cash df)) ∧
    (waterfall (general_assets df) (normal_cash df) (total_honhai_shares df)
      p).use_normal_cash ≤ normal_cash df ∧
    (0 < (waterfall (general_assets df) (normal_cash df) (total_honhai_shares df)
        p).use_buffer_cash →
      0 < planGap1 (waterfall (general_assets df) (normal_cash df)
          (total_honhai_shares df) p) -
        (waterfall (general_assets df) (normal_cash df) (total_honhai_shares df)
          p).use_normal_cash) ∧
    (0 < planGap1 (waterfall (general_assets df) (normal_cash df)
        (total_honhai_shares df) p) -
      (waterfall (general_assets df) (normal_cash df) (total_honhai_shares df)
        p).use_normal_cash →
      (waterfall (general_assets df) (normal_cash df) (total_honhai_shares df)
        p).use_buffer_cash =
        planGap1 (waterfall (general_assets df) (normal_cash df)
          (total_honhai_shares df) p) -
        (waterfall (general_assets df) (normal_cash df) (total_honhai_shares df)
          p).use_normal_cash) :=
  layers_core _ _ _ _ (normal_cash_nonneg df) rfl rfl

/-- C6 witness: layer 3 fires as `min gap1 ordinaryCash` on the empty
ledger with the §8 example parameters (`gap1 = 72000 > 0`). -/
theorem layer_ordering_witness :
    (waterfall (general_assets []) (normal_cash []) (total_honhai_shares [])
      sampleParams).use_normal_cash =
      min (planGap1 (waterfall (general_assets []) (normal_cash [])
        (total_honhai_shares []) sampleParams)) (normal_cash []) :=
  (layer_ordering [] sampleParams).2.1 (by
    norm_num [planGap1, waterfall, general_assets, normal_cash, total_honhai_shares,
      assetRecords, sampleParams])

/-- C9 witness: the excluded-row no-op at a concrete state and row, and
the insertion invariance around a concrete one-row ledger. -/
theorem no_double_count_witness :
    step ⟨Sec.asset, [], []⟩ [.str "合計".data] = some ⟨Sec.asset, [], []⟩ ∧
    parse_my_data ([[.str "現金".data, .num 5, .str [], .str []]] ++
        ([.str "合計".data, .str "".data, .str "".data, .str "999999".data]) :: []) =
      parse_my_data ([[.str "現金".data, .num 5, .str [], .str []]] ++ []) :=
  ⟨no_double_count.1 _ _ (by decide), no_double_count.2 _ _⟩

end WealthApp
